import Mathlib

/-!
Shallow embedding of `src/k8s/locust.py` (the Locust load-generation
script of the Three-tier-Chat-App repository).

The script defines a static credential pool `USERS`, a `ChatAppUser`
class with a static `chat_ids` list, an `on_start` initialization that
picks an identity and a partner, logs in and installs an Authorization
header, and three weighted tasks `get_messages`, `send_message`, and
`health`.  Randomness (`random.choice`) is modelled by passing the
chosen index explicitly; fallible operations (Python `IndexError`,
`dict.get` on a missing key) are modelled with `Option`.
-/

/-- A test account: `{"email": ..., "password": ..., "username": ...}`. -/
structure Credential where
  email : String
  password : String
  username : String
deriving DecidableEq, Repr

/-- The first test account of the pool. -/
def shoeb : Credential :=
  ⟨"shoeb123@gmail.com", "Shoebshoeb1@", "shoeb123"⟩

/-- The second test account of the pool. -/
def zaid : Credential :=
  ⟨"zaid123.com", "Shoebshoeb1@", "zaid"⟩

/-- The static test-account pool `USERS` from the top of the script. -/
def USERS : List Credential := [shoeb, zaid]

/-- The static `chat_ids` list of `ChatAppUser`. -/
def chat_ids : List String :=
  [ "68b3db1df23915a857fcadab",
    "7fa9db12e29345a123b9fdef",
    "5bc7cd8aee993a3b5679c8aa" ]

/-- Python `random.choice(l)`: returns an element of `l` for any draw,
normalized here to index `i % l.length`; raises `IndexError` (here:
`none`) exactly when `l` is empty. -/
def randomChoice (l : List α) (i : Nat) : Option α :=
  l.get? (i % l.length)

/-- `[u for u in USERS if u["email"] != self.user["email"]][0]`:
filter the pool by a different email and take element 0.  The `[0]`
indexing raises `IndexError` (here: `none`) when the filter is empty. -/
def selectPartner (pool : List Credential) (identity : Credential) :
    Option Credential :=
  (pool.filter (fun u => u.email != identity.email)).head?

/-- Python `resp.json().get("token")`: `None` when the key is absent. -/
def jsonGet (body : List (String × String)) (key : String) : Option String :=
  (body.find? (fun kv => kv.1 == key)).map (fun kv => kv.2)

/-- Python f-string interpolation of a possibly-`None` value:
`f"Bearer {token}"` renders `None` as the string `"None"`. -/
def pyStrOfOpt : Option String → String
  | some s => s
  | none => "None"

/-- HTTP method of a request the script issues. -/
inductive Method
  | GET
  | POST
deriving DecidableEq, Repr

/-- One outbound HTTP request, with its JSON body (as key/value pairs)
and the client-level headers attached to it. -/
structure Request where
  method : Method
  path : String
  body : List (String × String)
  headers : List (String × String)
deriving DecidableEq, Repr

/-- The per-session state after `on_start`: `self.user`, `self.partner`
and `self.client.headers`. -/
structure Session where
  user : Credential
  partner : Credential
  headers : List (String × String)
deriving DecidableEq, Repr

/-- The login request issued by `on_start`:
`self.client.post("/login", json={"email": ..., "password": ...})`.
It is sent with the client headers as they are before the header
assignment. -/
def loginRequest (user : Credential) (initHeaders : List (String × String)) :
    Request :=
  ⟨Method.POST, "/login",
    [("email", user.email), ("password", user.password)], initHeaders⟩

/-- `ChatAppUser.on_start`: pick `self.user` by `random.choice(USERS)`
(draw index `i`), compute `self.partner` by filtering on a different
email and indexing `[0]`, post `/login`, read `token` from the response
body, and replace `self.client.headers` wholesale with the single
Authorization entry.  `initHeaders` are the client headers before the
assignment; `respBody` is the JSON body of the login response.  `none`
models an uncaught `IndexError` during initialization. -/
def on_start (pool : List Credential) (initHeaders : List (String × String))
    (i : Nat) (respBody : List (String × String)) :
    Option (Session × Request) :=
  match randomChoice pool i with
  | none => none
  | some user =>
    match selectPartner pool user with
    | none => none
    | some partner =>
      let token := jsonGet respBody "token"
      some (⟨user, partner,
              [("Authorization", "Bearer " ++ pyStrOfOpt token)]⟩,
            loginRequest user initHeaders)

/-- `ChatAppUser.get_messages`: pick a chat id (draw index `j`) and GET
`/api/messages/{chat_id}` with the session headers. -/
def get_messages (s : Session) (j : Nat) : Option Request :=
  (randomChoice chat_ids j).map (fun chat_id =>
    ⟨Method.GET, "/api/messages/" ++ chat_id, [], s.headers⟩)

/-- `ChatAppUser.send_message`: pick a chat id (draw index `j`) and POST
`/api/messages/send/{chat_id}` with body
`{"from": self.user["username"], "to": self.partner["username"],
"msg": f"Hello {partner} from {user}!"}`. -/
def send_message (s : Session) (j : Nat) : Option Request :=
  (randomChoice chat_ids j).map (fun chat_id =>
    ⟨Method.POST, "/api/messages/send/" ++ chat_id,
      [("from", s.user.username),
       ("to", s.partner.username),
       ("msg", "Hello " ++ s.partner.username ++ " from " ++
               s.user.username ++ "!")],
      s.headers⟩)

/-- `ChatAppUser.health`: GET `/health` with the session headers. -/
def health (s : Session) : Request :=
  ⟨Method.GET, "/health", [], s.headers⟩

/-- The `@task(n)` weight on `get_messages`. -/
def get_messages_weight : Nat := 6

/-- The `@task(n)` weight on `send_message`. -/
def send_message_weight : Nat := 3

/-- The `@task(n)` weight on `health` (`@task(5)` in the source, whose
comment reads `# 10%: health check`). -/
def health_weight : Nat := 5

/-- The total task weight of `ChatAppUser`. -/
def total_weight : Nat :=
  get_messages_weight + send_message_weight + health_weight

/-- The three task variants of `ChatAppUser`. -/
inductive ActionKind
  | FetchMessages
  | SendMessage
  | HealthCheck
deriving DecidableEq, Repr

/-- Locust's weighted task selection: each task appears in the
scheduler's candidate list once per unit of its `@task` weight, and one
entry is chosen uniformly at random. -/
def taskList : List ActionKind :=
  List.replicate get_messages_weight ActionKind.FetchMessages ++
  List.replicate send_message_weight ActionKind.SendMessage ++
  List.replicate health_weight ActionKind.HealthCheck

/-- One weighted draw of the scheduler. -/
def selectAction (i : Nat) : Option ActionKind :=
  randomChoice taskList i

/-- One iteration of the harness loop after `on_start`: a task draw
together with the chat-id draw it consumes (if any). -/
inductive ActionInput
  | fetch (j : Nat)
  | send (j : Nat)
  | check
deriving DecidableEq, Repr

/-- The request issued by one scheduled task in session `s`. -/
def runAction (s : Session) : ActionInput → Option Request
  | ActionInput.fetch j => get_messages s j
  | ActionInput.send j => send_message s j
  | ActionInput.check => some (health s)

/-- The full request trace of one simulated session: `on_start` runs
first (Locust calls it before scheduling any task), so the login
request precedes every task request. -/
def sessionTrace (pool : List Credential)
    (initHeaders : List (String × String)) (i : Nat)
    (respBody : List (String × String)) (actions : List ActionInput) :
    Option (List Request) :=
  match on_start pool initHeaders i respBody with
  | none => none
  | some (s, loginReq) =>
    some (loginReq :: actions.filterMap (runAction s))

/-- A sample fully initialized session over the `USERS` pool, as
produced by `on_start` when draw 0 picks `shoeb` and the login response
has no token. -/
def sampleSession : Session :=
  ⟨shoeb, zaid, [("Authorization", "Bearer None")]⟩

/-- The request `send_message` issues from `sampleSession` on chat-id
draw 0. -/
def sampleSendRequest : Request :=
  ⟨Method.POST, "/api/messages/send/68b3db1df23915a857fcadab",
    [("from", "shoeb123"), ("to", "zaid"),
     ("msg", "Hello zaid from shoeb123!")],
    [("Authorization", "Bearer None")]⟩

theorem randomChoice_mem (l : List α) (i : Nat) (x : α)
    (h : randomChoice l i = some x) : x ∈ l :=
  List.get?_mem h

theorem on_start_eval0 (hd : List (String × String)) (i : Nat)
    (b : List (String × String)) (h2 : i % 2 = 0) :
    on_start USERS hd i b =
      some (⟨shoeb, zaid,
              [("Authorization", "Bearer " ++ pyStrOfOpt (jsonGet b "token"))]⟩,
            loginRequest shoeb hd) := by
  have hrc : randomChoice USERS i = some shoeb := by
    unfold randomChoice
    rw [show USERS.length = 2 from rfl, h2]
    rfl
  simp [on_start, hrc, show selectPartner USERS shoeb = some zaid from by decide]

theorem on_start_eval1 (hd : List (String × String)) (i : Nat)
    (b : List (String × String)) (h2 : i % 2 = 1) :
    on_start USERS hd i b =
      some (⟨zaid, shoeb,
              [("Authorization", "Bearer " ++ pyStrOfOpt (jsonGet b "token"))]⟩,
            loginRequest zaid hd) := by
  have hrc : randomChoice USERS i = some zaid := by
    unfold randomChoice
    rw [show USERS.length = 2 from rfl, h2]
    rfl
  simp [on_start, hrc, show selectPartner USERS zaid = some shoeb from by decide]

theorem on_start_users_cases (hd : List (String × String)) (i : Nat)
    (b : List (String × String)) (s : Session) (l : Request)
    (h : on_start USERS hd i b = some (s, l)) :
    (s.user = shoeb ∧ s.partner = zaid) ∨
    (s.user = zaid ∧ s.partner = shoeb) := by
  rcases Nat.mod_two_eq_zero_or_one i with h2 | h2
  · rw [on_start_eval0 hd i b h2] at h
    simp only [Option.some.injEq, Prod.mk.injEq] at h
    left
    rw [← h.1]
    exact ⟨rfl, rfl⟩
  · rw [on_start_eval1 hd i b h2] at h
    simp only [Option.some.injEq, Prod.mk.injEq] at h
    right
    rw [← h.1]
    exact ⟨rfl, rfl⟩

theorem on_start_spec (pool : List Credential) (hd : List (String × String))
    (i : Nat) (b : List (String × String)) (s : Session) (l : Request)
    (h : on_start pool hd i b = some (s, l)) :
    l = loginRequest s.user hd ∧
    s.headers = [("Authorization", "Bearer " ++ pyStrOfOpt (jsonGet b "token"))] ∧
    s.user ∈ pool ∧ selectPartner pool s.user = some s.partner := by
  unfold on_start at h
  cases hrc : randomChoice pool i with
  | none => simp only [hrc] at h; cases h
  | some user =>
    simp only [hrc] at h
    cases hsp : selectPartner pool user with
    | none => simp only [hsp] at h; cases h
    | some partner =>
      simp only [hsp, Option.some.injEq, Prod.mk.injEq] at h
      obtain ⟨hs, hl⟩ := h
      subst hs
      subst hl
      exact ⟨rfl, rfl, List.get?_mem hrc, hsp⟩

theorem runAction_headers (s : Session) (a : ActionInput) (r : Request)
    (h : runAction s a = some r) : r.headers = s.headers := by
  cases a with
  | fetch j =>
    simp only [runAction, get_messages, Option.map_eq_some'] at h
    obtain ⟨c, _, hr⟩ := h
    rw [← hr]
  | send j =>
    simp only [runAction, send_message, Option.map_eq_some'] at h
    obtain ⟨c, _, hr⟩ := h
    rw [← hr]
  | check =>
    simp only [runAction, Option.some.injEq] at h
    rw [← h]
    rfl

theorem sessionTrace_spec (pool : List Credential)
    (hd : List (String × String)) (i : Nat) (b : List (String × String))
    (actions : List ActionInput) (reqs : List Request)
    (h : sessionTrace pool hd i b actions = some reqs) :
    ∃ s : Session, on_start pool hd i b = some (s, loginRequest s.user hd) ∧
      reqs = loginRequest s.user hd :: actions.filterMap (runAction s) ∧
      s.headers = [("Authorization", "Bearer " ++ pyStrOfOpt (jsonGet b "token"))] ∧
      ∀ r ∈ actions.filterMap (runAction s), r.headers = s.headers := by
  unfold sessionTrace at h
  cases hos : on_start pool hd i b with
  | none => simp only [hos] at h; cases h
  | some pr =>
    obtain ⟨s, l⟩ := pr
    simp only [hos, Option.some.injEq] at h
    obtain ⟨hl, hh, _, _⟩ := on_start_spec pool hd i b s l hos
    subst hl
    refine ⟨s, rfl, h.symm, hh, ?_⟩
    intro r hr
    obtain ⟨a, _, ha⟩ := List.mem_filterMap.mp hr
    exact runAction_headers s a r ha

/-- C1: the claim says the task weights are (6, 3, 1) with selection
probabilities (0.6, 0.3, 0.1).  In the source, `health` is declared
`@task(5)` — despite its own comment `# 10%: health check` — so the
weights are (6, 3, 5), the total is 14, and the HealthCheck selection
probability is 5/14, not 1/10. -/
theorem C1_health_weight_is_five_not_one :
    get_messages_weight = 6 ∧ send_message_weight = 3 ∧
    health_weight = 5 ∧ health_weight ≠ 1 ∧ total_weight = 14 ∧
    taskList.count ActionKind.FetchMessages = 6 ∧
    taskList.count ActionKind.SendMessage = 3 ∧
    taskList.count ActionKind.HealthCheck = 5 ∧
    taskList.length = 14 ∧
    (taskList.count ActionKind.HealthCheck : ℚ) / (taskList.length : ℚ) ≠
      1 / 10 := by
  refine ⟨rfl, rfl, rfl, by decide, by decide, by decide, by decide,
    by decide, by decide, ?_⟩
  rw [show taskList.count ActionKind.HealthCheck = 5 from by decide,
      show taskList.length = 14 from by decide]
  norm_num

/-- C2: every session produced by `on_start` over the `USERS` pool has
`partner.email ≠ user.email`, and if the identity is the first
credential then the partner is necessarily the second. -/
theorem C2_partner_email_ne_identity_email (hd : List (String × String))
    (i : Nat) (b : List (String × String)) (s : Session) (l : Request)
    (h : on_start USERS hd i b = some (s, l)) :
    s.partner.email ≠ s.user.email ∧
    (s.user = shoeb → s.partner = zaid) ∧
    (s.user = zaid → s.partner = shoeb) := by
  rcases on_start_users_cases hd i b s l h with ⟨hu, hp⟩ | ⟨hu, hp⟩ <;>
    rw [hu, hp]
  · exact ⟨by decide, fun _ => rfl, fun hx => absurd hx (by decide)⟩
  · exact ⟨by decide, fun hx => absurd hx (by decide), fun _ => rfl⟩

theorem C2_witness :
    zaid.email ≠ shoeb.email ∧
    (shoeb = shoeb → zaid = zaid) ∧ (shoeb = zaid → zaid = shoeb) :=
  C2_partner_email_ne_identity_email [] 0 []
    ⟨shoeb, zaid, [("Authorization", "Bearer None")]⟩
    (loginRequest shoeb []) (by decide)

/-- C3: when the login response body has no `token` field, `on_start`
still succeeds (no exception is modelled as `some`), the Authorization
header is built from the null token (`"Bearer None"`), and the session
proceeds to the action loop. -/
theorem C3_missing_token_proceeds (hd : List (String × String)) (i : Nat)
    (b : List (String × String)) (hb : jsonGet b "token" = none) :
    ∃ s l, on_start USERS hd i b = some (s, l) ∧
      s.headers = [("Authorization", "Bearer None")] ∧
      ∀ actions, sessionTrace USERS hd i b actions =
        some (l :: actions.filterMap (runAction s)) := by
  rcases Nat.mod_two_eq_zero_or_one i with h2 | h2
  · refine ⟨_, _, on_start_eval0 hd i b h2, ?_, ?_⟩
    · simp [hb, pyStrOfOpt]
    · intro actions
      simp [sessionTrace, on_start_eval0 hd i b h2]
  · refine ⟨_, _, on_start_eval1 hd i b h2, ?_, ?_⟩
    · simp [hb, pyStrOfOpt]
    · intro actions
      simp [sessionTrace, on_start_eval1 hd i b h2]

theorem C3_witness :
    ∃ s l, on_start USERS [] 0 [] = some (s, l) ∧
      s.headers = [("Authorization", "Bearer None")] ∧
      ∀ actions, sessionTrace USERS [] 0 [] actions =
        some (l :: actions.filterMap (runAction s)) :=
  C3_missing_token_proceeds [] 0 [] rfl

/-- C4: in every session trace, the login request comes first and every
later request carries the Authorization header holding the token stored
by `on_start` — no action request is issued before login completes. -/
theorem C4_login_precedes_every_action (pool : List Credential)
    (hd : List (String × String)) (i : Nat) (b : List (String × String))
    (actions : List ActionInput) (reqs : List Request)
    (h : sessionTrace pool hd i b actions = some reqs) :
    ∃ s : Session,
      reqs.head? = some (loginRequest s.user hd) ∧
      ∀ r ∈ reqs.tail,
        r.headers =
          [("Authorization", "Bearer " ++ pyStrOfOpt (jsonGet b "token"))] := by
  obtain ⟨s, _, hreqs, hh, htl⟩ := sessionTrace_spec pool hd i b actions reqs h
  subst hreqs
  refine ⟨s, rfl, ?_⟩
  intro r hr
  rw [htl r hr]
  exact hh

theorem C4_witness :
    ∃ s : Session,
      (List.head? [loginRequest shoeb [], health ⟨shoeb, zaid,
          [("Authorization", "Bearer None")]⟩] = some (loginRequest s.user [])) ∧
      ∀ r ∈ (List.tail [loginRequest shoeb [], health ⟨shoeb, zaid,
          [("Authorization", "Bearer None")]⟩]),
        r.headers =
          [("Authorization", "Bearer " ++ pyStrOfOpt (jsonGet [] "token"))] :=
  C4_login_precedes_every_action USERS [] 0 [] [ActionInput.check] _ (by decide)

/-- C5: if the login response body carries token `abc123`, every
request issued after login (every element of the trace's tail) carries
the header `Authorization: Bearer abc123`. -/
theorem C5_bearer_token_on_every_request (pool : List Credential)
    (hd : List (String × String)) (i : Nat) (b : List (String × String))
    (hb : jsonGet b "token" = some "abc123")
    (actions : List ActionInput) (reqs : List Request)
    (h : sessionTrace pool hd i b actions = some reqs) :
    ∀ r ∈ reqs.tail, r.headers = [("Authorization", "Bearer abc123")] := by
  obtain ⟨s, _, hreqs, hh, htl⟩ := sessionTrace_spec pool hd i b actions reqs h
  subst hreqs
  intro r hr
  rw [htl r hr, hh, hb]
  rfl

theorem C5_witness :
    (health ⟨shoeb, zaid, [("Authorization", "Bearer abc123")]⟩).headers =
      [("Authorization", "Bearer abc123")] :=
  C5_bearer_token_on_every_request USERS [] 0 [("token", "abc123")] rfl
    [ActionInput.check]
    [loginRequest shoeb [],
     health ⟨shoeb, zaid, [("Authorization", "Bearer abc123")]⟩]
    (by decide)
    (health ⟨shoeb, zaid, [("Authorization", "Bearer abc123")]⟩)
    (by decide)

/-- C6: every request produced by `send_message` is a POST whose body
has `from = identity.username`, `to = partner.username`, and the
templated greeting referencing both usernames; over the `USERS` pool
the two usernames are never equal. -/
theorem C6_send_message_body (hd : List (String × String)) (i : Nat)
    (b : List (String × String)) (s : Session) (l : Request)
    (h : on_start USERS hd i b = some (s, l)) (j : Nat) (r : Request)
    (hr : send_message s j = some r) :
    r.method = Method.POST ∧
    jsonGet r.body "from" = some s.user.username ∧
    jsonGet r.body "to" = some s.partner.username ∧
    jsonGet r.body "msg" =
      some ("Hello " ++ s.partner.username ++ " from " ++
            s.user.username ++ "!") ∧
    s.user.username ≠ s.partner.username := by
  simp only [send_message, Option.map_eq_some'] at hr
  obtain ⟨c, hc, hreq⟩ := hr
  subst hreq
  refine ⟨rfl, rfl, rfl, rfl, ?_⟩
  rcases on_start_users_cases hd i b s l h with ⟨hu, hp⟩ | ⟨hu, hp⟩ <;>
    rw [hu, hp] <;> decide

theorem C6_witness :
    sampleSendRequest.method = Method.POST ∧
    jsonGet sampleSendRequest.body "from" = some sampleSession.user.username ∧
    jsonGet sampleSendRequest.body "to" = some sampleSession.partner.username ∧
    jsonGet sampleSendRequest.body "msg" =
      some ("Hello " ++ sampleSession.partner.username ++ " from " ++
            sampleSession.user.username ++ "!") ∧
    sampleSession.user.username ≠ sampleSession.partner.username :=
  C6_send_message_body [] 0 [] sampleSession (loginRequest shoeb [])
    (by decide) 0 sampleSendRequest (by decide)

/-- C7: any chat id used by `get_messages` or `send_message` is drawn
from the static `chat_ids` set, and the request path embeds it. -/
theorem C7_chat_id_in_static_set (s : Session) (j : Nat) :
    (∀ r, get_messages s j = some r →
       ∃ c ∈ chat_ids, r.path = "/api/messages/" ++ c) ∧
    (∀ r, send_message s j = some r →
       ∃ c ∈ chat_ids, r.path = "/api/messages/send/" ++ c) := by
  constructor <;> intro r hr
  · simp only [get_messages, Option.map_eq_some'] at hr
    obtain ⟨c, hc, hreq⟩ := hr
    exact ⟨c, randomChoice_mem chat_ids j c hc, by rw [← hreq]⟩
  · simp only [send_message, Option.map_eq_some'] at hr
    obtain ⟨c, hc, hreq⟩ := hr
    exact ⟨c, randomChoice_mem chat_ids j c hc, by rw [← hreq]⟩

theorem C7_witness :
    ∃ c ∈ chat_ids,
      (Request.mk Method.GET "/api/messages/68b3db1df23915a857fcadab" []
        [("Authorization", "Bearer None")]).path = "/api/messages/" ++ c :=
  (C7_chat_id_in_static_set sampleSession 0).1 _ (by decide)

/-- C8: each operation addresses exactly its contracted endpoint:
login is POST `/login` with `{email, password}`; FetchMessages is GET
`/api/messages/{chat_id}` with no body; SendMessage is POST
`/api/messages/send/{chat_id}` with `{from, to, msg}`; HealthCheck is
GET `/health` with no body. -/
theorem C8_endpoint_contracts :
    (∀ (pool : List Credential) (hd : List (String × String)) (i : Nat)
       (b : List (String × String)) (s : Session) (l : Request),
       on_start pool hd i b = some (s, l) →
       l.method = Method.POST ∧ l.path = "/login" ∧
       l.body = [("email", s.user.email), ("password", s.user.password)]) ∧
    (∀ (s : Session) (j : Nat) (r : Request), get_messages s j = some r →
       r.method = Method.GET ∧ r.body = [] ∧
       ∃ c ∈ chat_ids, r.path = "/api/messages/" ++ c) ∧
    (∀ (s : Session) (j : Nat) (r : Request), send_message s j = some r →
       r.method = Method.POST ∧
       r.body = [("from", s.user.username), ("to", s.partner.username),
         ("msg", "Hello " ++ s.partner.username ++ " from " ++
                 s.user.username ++ "!")] ∧
       ∃ c ∈ chat_ids, r.path = "/api/messages/send/" ++ c) ∧
    (∀ s : Session, (health s).method = Method.GET ∧
       (health s).path = "/health" ∧ (health s).body = []) := by
  refine ⟨?_, ?_, ?_, ?_⟩
  · intro pool hd i b s l h
    obtain ⟨hl, _, _, _⟩ := on_start_spec pool hd i b s l h
    subst hl
    exact ⟨rfl, rfl, rfl⟩
  · intro s j r hr
    simp only [get_messages, Option.map_eq_some'] at hr
    obtain ⟨c, hc, hreq⟩ := hr
    subst hreq
    exact ⟨rfl, rfl, c, randomChoice_mem chat_ids j c hc, rfl⟩
  · intro s j r hr
    simp only [send_message, Option.map_eq_some'] at hr
    obtain ⟨c, hc, hreq⟩ := hr
    subst hreq
    exact ⟨rfl, rfl, c, randomChoice_mem chat_ids j c hc, rfl⟩
  · intro s
    exact ⟨rfl, rfl, rfl⟩

theorem C8_witness :
    (loginRequest shoeb []).method = Method.POST ∧
    (loginRequest shoeb []).path = "/login" ∧
    (loginRequest shoeb []).body =
      [("email", sampleSession.user.email),
       ("password", sampleSession.user.password)] :=
  C8_endpoint_contracts.1 USERS [] 0 [] sampleSession (loginRequest shoeb [])
    (by decide)

/-- C9: `on_start` replaces the client headers wholesale: whatever the
headers were before login, afterwards they are exactly the single
Authorization entry. -/
theorem C9_headers_wholesale_replacement (pool : List Credential)
    (hd : List (String × String)) (i : Nat) (b : List (String × String))
    (s : Session) (l : Request) (h : on_start pool hd i b = some (s, l)) :
    s.headers =
      [("Authorization", "Bearer " ++ pyStrOfOpt (jsonGet b "token"))] ∧
    s.headers.length = 1 := by
  obtain ⟨_, hh, _, _⟩ := on_start_spec pool hd i b s l h
  exact ⟨hh, by rw [hh]; rfl⟩

theorem C9_witness :
    sampleSession.headers =
      [("Authorization", "Bearer " ++ pyStrOfOpt (jsonGet [] "token"))] ∧
    sampleSession.headers.length = 1 :=
  C9_headers_wholesale_replacement USERS [("User-Agent", "locust")] 0 []
    sampleSession (loginRequest shoeb [("User-Agent", "locust")]) (by decide)

/-- C10: with a pool holding fewer than two distinct emails (all
entries share one email, so also the empty and the singleton pool),
partner selection finds nothing and session initialization fails with
the unguarded indexing error (`none`) at session start; the static
pool itself carries no startup validation that would reject it
earlier. -/
theorem C10_degenerate_pool_fails_at_session_start (pool : List Credential)
    (hpool : ∀ u ∈ pool, ∀ v ∈ pool, u.email = v.email)
    (hd : List (String × String)) (i : Nat) (b : List (String × String)) :
    (∀ u, randomChoice pool i = some u → selectPartner pool u = none) ∧
    on_start pool hd i b = none ∧
    ∀ actions, sessionTrace pool hd i b actions = none := by
  have hsel : ∀ u, randomChoice pool i = some u →
      selectPartner pool u = none := by
    intro u hu
    unfold selectPartner
    rw [List.filter_eq_nil_iff.mpr ?_]
    · rfl
    · intro v hv
      simp [hpool v hv u (randomChoice_mem pool i u hu)]
  have hos : on_start pool hd i b = none := by
    unfold on_start
    cases hrc : randomChoice pool i with
    | none => rfl
    | some u => simp [hsel u hrc]
  refine ⟨hsel, hos, ?_⟩
  intro actions
  simp [sessionTrace, hos]

theorem C10_witness :
    (∀ u, randomChoice [shoeb] 0 = some u → selectPartner [shoeb] u = none) ∧
    on_start [shoeb] [] 0 [] = none ∧
    ∀ actions, sessionTrace [shoeb] [] 0 [] actions = none :=
  C10_degenerate_pool_fails_at_session_start [shoeb] (by decide) [] 0 []
